import Mathlib

/-!
# Verification of the migration-commit message and refine-shard-key coordinator

Shallow embedding of `src/mongo/s/request_types/commit_chunk_migration_request_type.cpp`
(`CommitChunkMigrationRequest::createFromCommand` and
`CommitChunkMigrationRequest::appendAsCommand`) and of the interface of
`src/mongo/db/s/refine_collection_shard_key_coordinator.h`.

BSON command objects are modelled as ordered association lists of named
values; the value shapes these two files manipulate are strings,
timestamps, shard-key boundary keys, chunk-version triples, and one level
of nested object (the `migratedChunk` subobject).  Helper components whose
implementations live outside the two source files (`ChunkRange::fromBSON`,
`ChunkVersion::parse`, `NamespaceString::isValid`, the bson_extract
helpers, and the coordinator method bodies) are modelled from the
specification, each marked `Modelled from the spec:` in its doc comment.
-/

namespace MongoModel

/-- A BSON timestamp: seconds plus increment, each a 32-bit value. -/
structure Timestamp where
  seconds : Nat
  increment : Nat
deriving DecidableEq, Repr

/-- An ObjectId, the opaque epoch identifier of a collection. -/
structure OID where
  ident : Nat
deriving DecidableEq, Repr

/-- Modelled from the spec: the version triple of §3 — an opaque epoch, a
monotonic 64-bit counter, and a wall-clock timestamp.  This is the
`ChunkVersion` value the helpers outside src/ parse and serialize. -/
structure ChunkVersion where
  epoch : OID
  counter : Nat
  timestamp : Timestamp
deriving DecidableEq, Repr

/-- Modelled from the spec: the all-zero, "unset" chunk version. -/
def ChunkVersion.zero : ChunkVersion :=
  { epoch := { ident := 0 }, counter := 0, timestamp := { seconds := 0, increment := 0 } }

/-- Modelled from the spec: `ChunkVersion::isSet` — a version is set iff it
is not the default (all-zero) version. -/
def ChunkVersion.isSet (v : ChunkVersion) : Bool :=
  decide (v ≠ ChunkVersion.zero)

/-- A shard identifier is a string (`ShardId` wraps a std::string). -/
abbrev ShardId := String

/-- A namespace string; only the full namespace text is relevant here. -/
structure NamespaceString where
  ns : String
deriving DecidableEq, Repr

/-- Modelled from the spec: `NamespaceString::isValid` — the §4.2 serialize
precondition that the collection identity is well-formed, modelled as the
namespace text being non-empty. -/
def NamespaceString.isValid (nss : NamespaceString) : Bool :=
  decide (nss.ns ≠ "")

/-- A scalar BSON value of the shapes these code paths inspect.  `key` is
an opaque, totally ordered shard-key boundary value; `version` is the
nested encoding of a chunk-version triple (shared by serialize and
parse). -/
inductive BSONLeaf where
  | str : String → BSONLeaf
  | ts : Timestamp → BSONLeaf
  | key : Int → BSONLeaf
  | version : ChunkVersion → BSONLeaf
deriving DecidableEq, Repr

/-- A top-level BSON value: a scalar, or one level of nested object (the
`migratedChunk` subobject is the only nested object in this protocol). -/
inductive BSONValue where
  | leaf : BSONLeaf → BSONValue
  | obj : List (String × BSONLeaf) → BSONValue
deriving DecidableEq, Repr

/-- A BSON command object: an ordered list of named values. -/
abbrev BSONObj := List (String × BSONValue)

/-- Field lookup in a command object, first occurrence wins (as
`BSONObj::getField` does). -/
def getField : BSONObj → String → Option BSONValue
  | [], _ => none
  | (name, value) :: rest, field =>
      if name = field then some value else getField rest field

/-- Field lookup in a nested subobject, first occurrence wins. -/
def getLeaf : List (String × BSONLeaf) → String → Option BSONLeaf
  | [], _ => none
  | (name, value) :: rest, field =>
      if name = field then some value else getLeaf rest field

/-- The error codes produced along these code paths. -/
inductive ErrCode where
  | noSuchKey
  | typeMismatch
  | unsupportedFormat
  | failedToParse
  | conflictingOperation
  | location : Nat → ErrCode
deriving DecidableEq, Repr

/-- A failed Status: an error code plus a context message naming the field. -/
structure Status where
  code : ErrCode
  msg : String
deriving DecidableEq, Repr

/-- `StatusWith<T>` becomes `Except Status T`. -/
abbrev StatusWith (α : Type) := Except Status α

/-- Modelled from the spec: `bsonExtractTypedField` from bson_extract —
`NoSuchKey` when the field is absent, `TypeMismatch` when it is present
with the wrong shape, the value otherwise.  Instantiated at Object type. -/
def bsonExtractObjectField (source : BSONObj) (field : String) :
    StatusWith (List (String × BSONLeaf)) :=
  match getField source field with
  | none => .error { code := .noSuchKey, msg := field }
  | some (BSONValue.obj o) => .ok o
  | some _ => .error { code := .typeMismatch, msg := field }

/-- Modelled from the spec: `bsonExtractStringField` from bson_extract. -/
def bsonExtractStringField (source : BSONObj) (field : String) :
    StatusWith String :=
  match getField source field with
  | none => .error { code := .noSuchKey, msg := field }
  | some (BSONValue.leaf (BSONLeaf.str s)) => .ok s
  | some _ => .error { code := .typeMismatch, msg := field }

/-- Modelled from the spec: `bsonExtractTimestampField` from bson_extract. -/
def bsonExtractTimestampField (source : BSONObj) (field : String) :
    StatusWith Timestamp :=
  match getField source field with
  | none => .error { code := .noSuchKey, msg := field }
  | some (BSONValue.leaf (BSONLeaf.ts t)) => .ok t
  | some _ => .error { code := .typeMismatch, msg := field }

/-- A chunk range: two ordered boundary keys. -/
structure ChunkRange where
  minKey : Int
  maxKey : Int
deriving DecidableEq, Repr

/-- Modelled from the spec: `ChunkRange::fromBSON` — extracts the `min` and
`max` boundary keys and rejects a malformed range in which
`minKey >= maxKey` (§4.1 MalformedInput / ParseError::BadRange). -/
def ChunkRange.fromBSON (fieldObj : List (String × BSONLeaf)) : StatusWith ChunkRange :=
  match getLeaf fieldObj "min" with
  | some (BSONLeaf.key mn) =>
      match getLeaf fieldObj "max" with
      | some (BSONLeaf.key mx) =>
          if mn < mx then .ok { minKey := mn, maxKey := mx }
          else .error { code := .failedToParse, msg := "min must be less than max" }
      | some _ => .error { code := .typeMismatch, msg := "max" }
      | none => .error { code := .noSuchKey, msg := "max" }
  | some _ => .error { code := .typeMismatch, msg := "min" }
  | none => .error { code := .noSuchKey, msg := "min" }

/-- Modelled from the spec: `ChunkRange::append` — writes the two boundary
keys in the encoding `ChunkRange::fromBSON` reads back. -/
def ChunkRange.append (r : ChunkRange) : List (String × BSONLeaf) :=
  [("min", BSONLeaf.key r.minKey), ("max", BSONLeaf.key r.maxKey)]

/-- Modelled from the spec: `ChunkVersion::parse` applied to the element
found (or not found) at a field of a nested subobject — succeeds exactly
on the version-triple encoding that `serializeToBSON` produces, and
throws (here: returns an error Status, as the callers catch and convert)
on a missing or malformed element (§4.2 ParseError::BadVersion). -/
def ChunkVersion.parseElement (element : Option BSONLeaf) (field : String) :
    StatusWith ChunkVersion :=
  match element with
  | some (BSONLeaf.version v) => .ok v
  | some _ => .error { code := .typeMismatch, msg := field }
  | none => .error { code := .noSuchKey, msg := field }

/-- Modelled from the spec: `ChunkVersion::parse` applied to the element at
a field of the top-level command object. -/
def ChunkVersion.parseField (obj : BSONObj) (field : String) :
    StatusWith ChunkVersion :=
  match getField obj field with
  | some (BSONValue.leaf (BSONLeaf.version v)) => .ok v
  | some _ => .error { code := .typeMismatch, msg := field }
  | none => .error { code := .noSuchKey, msg := field }

/-- A range-only ChunkType as `extractChunk` builds it: min, max, version. -/
structure ChunkType where
  minKey : Int
  maxKey : Int
  version : ChunkVersion
deriving DecidableEq, Repr

/-- The parsed commit request.  Mirrors the fields `createFromCommand`
populates: note that of `fromShardCollectionVersion` only the epoch and
the timestamp are stored. -/
structure CommitChunkMigrationRequest where
  nss : NamespaceString
  migratedChunk : ChunkType
  fromShard : ShardId
  toShard : ShardId
  collectionEpoch : OID
  collectionTimestamp : Timestamp
  validAfter : Option Timestamp
deriving DecidableEq, Repr

/-- `extractChunk` (commit_chunk_migration_request_type.cpp lines 49-74):
object-typed field, then `ChunkRange::fromBSON`, then `ChunkVersion::parse`
of the `lastmod` element with the `Version must be set` uassert 644490. -/
def extractChunk (source : BSONObj) (field : String) : StatusWith ChunkType :=
  match bsonExtractObjectField source field with
  | .error s => .error s
  | .ok fieldObj =>
      match ChunkRange.fromBSON fieldObj with
      | .error s => .error s
      | .ok range =>
          match ChunkVersion.parseElement (getLeaf fieldObj "lastmod") "lastmod" with
          | .error s => .error s
          | .ok version =>
              if version.isSet then
                .ok { minKey := range.minKey, maxKey := range.maxKey, version := version }
              else
                .error { code := .location 644490, msg := "Version must be set" }

/-- `extractShardId` (lines 79-93): string-typed field, rejected with
`UnsupportedFormat` when empty. -/
def extractShardId (source : BSONObj) (field : String) : StatusWith ShardId :=
  match bsonExtractStringField source field with
  | .error s => .error s
  | .ok stringResult =>
      if stringResult = "" then
        .error { code := .unsupportedFormat,
                 msg := "The field " ++ field ++ " cannot be empty" }
      else
        .ok stringResult

/-- `CommitChunkMigrationRequest::createFromCommand` (lines 97-148): extract
`migratedChunk`, `fromShard`, `toShard`, parse `fromShardCollectionVersion`
keeping only its epoch and timestamp, then the optional `validAfter`
(absence — NoSuchKey — is not an error and leaves the field empty). -/
def createFromCommand (nss : NamespaceString) (obj : BSONObj) :
    StatusWith CommitChunkMigrationRequest :=
  match extractChunk obj "migratedChunk" with
  | .error s => .error s
  | .ok migratedChunk =>
      match extractShardId obj "fromShard" with
      | .error s => .error s
      | .ok fromShard =>
          match extractShardId obj "toShard" with
          | .error s => .error s
          | .ok toShard =>
              match ChunkVersion.parseField obj "fromShardCollectionVersion" with
              | .error s => .error s
              | .ok fromShardVersion =>
                  match bsonExtractTimestampField obj "validAfter" with
                  | .ok validAfter =>
                      .ok { nss := nss,
                            migratedChunk := migratedChunk,
                            fromShard := fromShard,
                            toShard := toShard,
                            collectionEpoch := fromShardVersion.epoch,
                            collectionTimestamp := fromShardVersion.timestamp,
                            validAfter := some validAfter }
                  | .error s =>
                      if s.code = .noSuchKey then
                        .ok { nss := nss,
                              migratedChunk := migratedChunk,
                              fromShard := fromShard,
                              toShard := toShard,
                              collectionEpoch := fromShardVersion.epoch,
                              collectionTimestamp := fromShardVersion.timestamp,
                              validAfter := none }
                      else .error s

/-- `CommitChunkMigrationRequest::appendAsCommand` (lines 150-170).  The two
`invariant` assertions are modelled as the `none` result (a fatal
assertion, not a recoverable Status); on the happy path the fixed field
list is appended to the builder in source order. -/
def appendAsCommand (builder : BSONObj) (nss : NamespaceString)
    (fromShard toShard : ShardId) (migratedChunk : ChunkType)
    (fromShardCollectionVersion : ChunkVersion) (validAfter : Timestamp) :
    Option BSONObj :=
  if builder = [] ∧ nss.isValid then
    some (builder ++
      [("_configsvrCommitChunkMigration", BSONValue.leaf (BSONLeaf.str nss.ns)),
       ("fromShard", BSONValue.leaf (BSONLeaf.str fromShard)),
       ("toShard", BSONValue.leaf (BSONLeaf.str toShard)),
       ("migratedChunk", BSONValue.obj
         (ChunkRange.append { minKey := migratedChunk.minKey,
                              maxKey := migratedChunk.maxKey } ++
          [("lastmod", BSONLeaf.version migratedChunk.version)])),
       ("fromShardCollectionVersion",
         BSONValue.leaf (BSONLeaf.version fromShardCollectionVersion)),
       ("validAfter", BSONValue.leaf (BSONLeaf.ts validAfter))])
  else none

/-- A valid commit-message field tuple: the six arguments of
`appendAsCommand` (the inputs of serialize). -/
structure CommitTuple where
  nss : NamespaceString
  fromShard : ShardId
  toShard : ShardId
  migratedChunk : ChunkType
  fromShardCollectionVersion : ChunkVersion
  validAfter : Timestamp
deriving DecidableEq, Repr

/-- Validity of a commit-message field tuple: well-formed collection
identity, non-empty shard identifiers, a set migrated-chunk version and an
ordered range. -/
def CommitTuple.valid (x : CommitTuple) : Bool :=
  x.nss.isValid && decide (x.fromShard ≠ "") && decide (x.toShard ≠ "") &&
    x.migratedChunk.version.isSet &&
    decide (x.migratedChunk.minKey < x.migratedChunk.maxKey)

/-- The message `appendAsCommand` produces from an empty builder. -/
def serializeTuple (x : CommitTuple) : BSONObj :=
  [("_configsvrCommitChunkMigration", BSONValue.leaf (BSONLeaf.str x.nss.ns)),
   ("fromShard", BSONValue.leaf (BSONLeaf.str x.fromShard)),
   ("toShard", BSONValue.leaf (BSONLeaf.str x.toShard)),
   ("migratedChunk", BSONValue.obj
     [("min", BSONLeaf.key x.migratedChunk.minKey),
      ("max", BSONLeaf.key x.migratedChunk.maxKey),
      ("lastmod", BSONLeaf.version x.migratedChunk.version)]),
   ("fromShardCollectionVersion",
     BSONValue.leaf (BSONLeaf.version x.fromShardCollectionVersion)),
   ("validAfter", BSONValue.leaf (BSONLeaf.ts x.validAfter))]

/-- The request that a tuple corresponds to after parsing: of
`fromShardCollectionVersion` only the epoch and the timestamp survive. -/
def requestOfTuple (x : CommitTuple) : CommitChunkMigrationRequest :=
  { nss := x.nss,
    migratedChunk := x.migratedChunk,
    fromShard := x.fromShard,
    toShard := x.toShard,
    collectionEpoch := x.fromShardCollectionVersion.epoch,
    collectionTimestamp := x.fromShardCollectionVersion.timestamp,
    validAfter := some x.validAfter }

/-- A command object holding the five fields `createFromCommand` reads,
with arbitrary values, for exercising each rejection path. -/
def rawMsg (chunk fromS toS fscv : BSONValue) (va : Option BSONValue) : BSONObj :=
  [("migratedChunk", chunk),
   ("fromShard", fromS),
   ("toShard", toS),
   ("fromShardCollectionVersion", fscv)] ++
  (match va with
   | some v => [("validAfter", v)]
   | none => [])

/-- A well-formed `migratedChunk` subobject with the given boundaries and
version. -/
def chunkObj (mn mx : Int) (ver : ChunkVersion) : BSONValue :=
  BSONValue.obj
    [("min", BSONLeaf.key mn), ("max", BSONLeaf.key mx),
     ("lastmod", BSONLeaf.version ver)]

/-- Modelled from the spec: a shard-key pattern as its ordered field list. -/
abbrev KeyPattern := List String

/-- Modelled from the spec: the parameters of the in-flight refine
coordinator state document — namespace, old shard key, new shard key
(§4.4; the document type is generated outside src/). -/
structure RefineCollectionShardKeyCoordinatorDocument where
  nss : NamespaceString
  oldShardKey : KeyPattern
  newShardKey : KeyPattern
deriving DecidableEq, Repr

/-- Modelled from the spec:
`RefineCollectionShardKeyCoordinator::checkIfOptionsConflict` — compares a
freshly arrived request document against the in-flight document
field-by-field (namespace, old key, new key); any mismatch is a
conflicting-operation error, never a merge (§4.4; only the declaration is
under src/). -/
def checkIfOptionsConflict
    (doc requestDoc : RefineCollectionShardKeyCoordinatorDocument) :
    StatusWith Unit :=
  if doc.nss = requestDoc.nss ∧ doc.oldShardKey = requestDoc.oldShardKey ∧
      doc.newShardKey = requestDoc.newShardKey then
    .ok ()
  else
    .error { code := .conflictingOperation,
             msg := "Another refine collection with different arguments is already running" }

/-- `MongoProcessInterface::CurrentOpConnectionsMode`. -/
inductive CurrentOpConnectionsMode where
  | includeIdle
  | excludeIdle
deriving DecidableEq, Repr

/-- `MongoProcessInterface::CurrentOpSessionsMode`. -/
inductive CurrentOpSessionsMode where
  | includeIdle
  | excludeIdle
deriving DecidableEq, Repr

/-- Modelled from the spec: the refine coordinator phases of §4.4. -/
inductive RefinePhase where
  | unset
  | validateAndFreeze
  | commitNewKey
  | done
deriving DecidableEq, Repr

/-- The phase serializer declared in the header. -/
def serializePhase : RefinePhase → String
  | .unset => "unset"
  | .validateAndFreeze => "validateAndFreeze"
  | .commitNewKey => "commitNewKey"
  | .done => "done"

/-- Modelled from the spec: the in-memory state a refine coordinator holds —
its document, current phase, and the optional collection UUID context that
may not have been resolved yet (§4.4). -/
structure RefineCoordinatorState where
  doc : RefineCollectionShardKeyCoordinatorDocument
  phase : RefinePhase
  collectionUUID : Option Nat
deriving DecidableEq, Repr

/-- Modelled from the spec:
`RefineCollectionShardKeyCoordinator::reportForCurrentOp` — a noexcept
member (per the header declaration under src/) producing a best-effort
progress snapshot with the namespace, phase and requested key; optional
context that cannot be gathered (the collection UUID) is omitted from the
snapshot instead of failing.  Exceptions would appear as the error case of
the result, and the body never produces one. -/
def reportForCurrentOp (st : RefineCoordinatorState)
    (connMode : CurrentOpConnectionsMode) (sessionMode : CurrentOpSessionsMode) :
    StatusWith (Option BSONObj) :=
  .ok (some
    ([("type", BSONValue.leaf (BSONLeaf.str "op")),
      ("desc", BSONValue.leaf (BSONLeaf.str "RefineCollectionShardKeyCoordinator")),
      ("ns", BSONValue.leaf (BSONLeaf.str st.doc.nss.ns)),
      ("phase", BSONValue.leaf (BSONLeaf.str (serializePhase st.phase))),
      ("newShardKey", BSONValue.obj
        (st.doc.newShardKey.map (fun f => (f, BSONLeaf.key 1))))] ++
     (match st.collectionUUID with
      | some u => [("collectionUUID", BSONValue.leaf (BSONLeaf.key (Int.ofNat u)))]
      | none => [])))

/-- `bsonExtractObjectField` on an already looked-up element. -/
def bsonExtractObjectElem (element : Option BSONValue) (field : String) :
    StatusWith (List (String × BSONLeaf)) :=
  match element with
  | none => .error { code := .noSuchKey, msg := field }
  | some (BSONValue.obj o) => .ok o
  | some _ => .error { code := .typeMismatch, msg := field }

/-- `bsonExtractStringField` on an already looked-up element. -/
def bsonExtractStringElem (element : Option BSONValue) (field : String) :
    StatusWith String :=
  match element with
  | none => .error { code := .noSuchKey, msg := field }
  | some (BSONValue.leaf (BSONLeaf.str s)) => .ok s
  | some _ => .error { code := .typeMismatch, msg := field }

/-- `bsonExtractTimestampField` on an already looked-up element. -/
def bsonExtractTimestampElem (element : Option BSONValue) (field : String) :
    StatusWith Timestamp :=
  match element with
  | none => .error { code := .noSuchKey, msg := field }
  | some (BSONValue.leaf (BSONLeaf.ts t)) => .ok t
  | some _ => .error { code := .typeMismatch, msg := field }

/-- `ChunkVersion::parse` on an already looked-up top-level element. -/
def ChunkVersion.parseValueElem (element : Option BSONValue) (field : String) :
    StatusWith ChunkVersion :=
  match element with
  | some (BSONValue.leaf (BSONLeaf.version v)) => .ok v
  | some _ => .error { code := .typeMismatch, msg := field }
  | none => .error { code := .noSuchKey, msg := field }

/-- `extractChunk` on an already looked-up element. -/
def extractChunkElem (element : Option BSONValue) (field : String) :
    StatusWith ChunkType :=
  match bsonExtractObjectElem element field with
  | .error s => .error s
  | .ok fieldObj =>
      match ChunkRange.fromBSON fieldObj with
      | .error s => .error s
      | .ok range =>
          match ChunkVersion.parseElement (getLeaf fieldObj "lastmod") "lastmod" with
          | .error s => .error s
          | .ok version =>
              if version.isSet then
                .ok { minKey := range.minKey, maxKey := range.maxKey, version := version }
              else
                .error { code := .location 644490, msg := "Version must be set" }

/-- `extractShardId` on an already looked-up element. -/
def extractShardIdElem (element : Option BSONValue) (field : String) :
    StatusWith ShardId :=
  match bsonExtractStringElem element field with
  | .error s => .error s
  | .ok stringResult =>
      if stringResult = "" then
        .error { code := .unsupportedFormat,
                 msg := "The field " ++ field ++ " cannot be empty" }
      else
        .ok stringResult

/-- `createFromCommand` factored through the five field lookups it
performs (proven below to agree with it definitionally); lets a proof
reason about one field with the others abstract. -/
def parseFields (nss : NamespaceString)
    (chunkF fromF toF fscvF vaF : Option BSONValue) :
    StatusWith CommitChunkMigrationRequest :=
  match extractChunkElem chunkF "migratedChunk" with
  | .error s => .error s
  | .ok migratedChunk =>
      match extractShardIdElem fromF "fromShard" with
      | .error s => .error s
      | .ok fromShard =>
          match extractShardIdElem toF "toShard" with
          | .error s => .error s
          | .ok toShard =>
              match ChunkVersion.parseValueElem fscvF "fromShardCollectionVersion" with
              | .error s => .error s
              | .ok fromShardVersion =>
                  match bsonExtractTimestampElem vaF "validAfter" with
                  | .ok validAfter =>
                      .ok { nss := nss,
                            migratedChunk := migratedChunk,
                            fromShard := fromShard,
                            toShard := toShard,
                            collectionEpoch := fromShardVersion.epoch,
                            collectionTimestamp := fromShardVersion.timestamp,
                            validAfter := some validAfter }
                  | .error s =>
                      if s.code = .noSuchKey then
                        .ok { nss := nss,
                              migratedChunk := migratedChunk,
                              fromShard := fromShard,
                              toShard := toShard,
                              collectionEpoch := fromShardVersion.epoch,
                              collectionTimestamp := fromShardVersion.timestamp,
                              validAfter := none }
                      else .error s

/-! ## Helper lemmas -/

/-- `createFromCommand` is its factored form applied to the five lookups. -/
theorem createFromCommand_eq_parseFields (nss : NamespaceString) (obj : BSONObj) :
    createFromCommand nss obj =
      parseFields nss (getField obj "migratedChunk") (getField obj "fromShard")
        (getField obj "toShard") (getField obj "fromShardCollectionVersion")
        (getField obj "validAfter") :=
  rfl

/-- The `migratedChunk` lookup in a raw test message. -/
theorem getField_rawMsg_migratedChunk (a b c d : BSONValue) (va : Option BSONValue) :
    getField (rawMsg a b c d va) "migratedChunk" = some a := by
  cases va <;> simp [rawMsg, getField]

/-- The `fromShard` lookup in a raw test message. -/
theorem getField_rawMsg_fromShard (a b c d : BSONValue) (va : Option BSONValue) :
    getField (rawMsg a b c d va) "fromShard" = some b := by
  cases va <;> simp [rawMsg, getField]

/-- The `toShard` lookup in a raw test message. -/
theorem getField_rawMsg_toShard (a b c d : BSONValue) (va : Option BSONValue) :
    getField (rawMsg a b c d va) "toShard" = some c := by
  cases va <;> simp [rawMsg, getField]

/-- The `fromShardCollectionVersion` lookup in a raw test message. -/
theorem getField_rawMsg_fscv (a b c d : BSONValue) (va : Option BSONValue) :
    getField (rawMsg a b c d va) "fromShardCollectionVersion" = some d := by
  cases va <;> simp [rawMsg, getField]

/-- The `validAfter` lookup in a raw test message. -/
theorem getField_rawMsg_validAfter (a b c d : BSONValue) (va : Option BSONValue) :
    getField (rawMsg a b c d va) "validAfter" = va := by
  cases va <;> simp [rawMsg, getField]

/-- Parsing a raw test message is the factored parse of its five values. -/
theorem createFromCommand_rawMsg (nss : NamespaceString)
    (a b c d : BSONValue) (va : Option BSONValue) :
    createFromCommand nss (rawMsg a b c d va) =
      parseFields nss (some a) (some b) (some c) (some d) va := by
  rw [createFromCommand_eq_parseFields, getField_rawMsg_migratedChunk,
    getField_rawMsg_fromShard, getField_rawMsg_toShard, getField_rawMsg_fscv,
    getField_rawMsg_validAfter]

/-- A shard id extracted successfully is non-empty. -/
theorem extractShardId_ok_ne_empty {source : BSONObj} {field : String} {s : ShardId}
    (h : extractShardId source field = .ok s) : s ≠ "" := by
  unfold extractShardId at h
  split at h
  · exact absurd h (by simp)
  · split at h
    · exact absurd h (by simp)
    · rename_i hne
      cases h
      exact hne

/-- A chunk extracted successfully has a set version and an ordered range. -/
theorem extractChunk_ok_valid {source : BSONObj} {field : String} {c : ChunkType}
    (h : extractChunk source field = .ok c) :
    c.version.isSet = true ∧ c.minKey < c.maxKey := by
  unfold extractChunk at h
  split at h
  · exact absurd h (by simp)
  next fieldObj _ =>
    split at h
    · exact absurd h (by simp)
    next range hrange =>
      split at h
      · exact absurd h (by simp)
      next version _ =>
        split at h
        next hset =>
          cases h
          refine ⟨hset, ?_⟩
          unfold ChunkRange.fromBSON at hrange
          split at hrange
          · split at hrange
            · split at hrange
              next hlt => cases hrange; exact hlt
              · exact absurd hrange (by simp)
            · exact absurd hrange (by simp)
            · exact absurd hrange (by simp)
          · exact absurd hrange (by simp)
          · exact absurd hrange (by simp)
        · exact absurd h (by simp)

/-- From an empty builder with a valid namespace, `appendAsCommand` produces
exactly the serialized tuple message. -/
theorem appendAsCommand_serializeTuple (x : CommitTuple) (hv : x.nss.isValid = true) :
    appendAsCommand [] x.nss x.fromShard x.toShard x.migratedChunk
      x.fromShardCollectionVersion x.validAfter = some (serializeTuple x) := by
  simp [appendAsCommand, serializeTuple, ChunkRange.append, hv]

/-- Unpacking of tuple validity into its five conjuncts. -/
theorem CommitTuple.valid_iff (x : CommitTuple) :
    x.valid = true ↔
      x.nss.isValid = true ∧ x.fromShard ≠ "" ∧ x.toShard ≠ "" ∧
        x.migratedChunk.version.isSet = true ∧
        x.migratedChunk.minKey < x.migratedChunk.maxKey := by
  simp [CommitTuple.valid, Bool.and_eq_true, and_assoc]

/-- Round trip through the concrete message: parsing the serialized form of
a valid tuple yields the request projection of the tuple. -/
theorem createFromCommand_serializeTuple (x : CommitTuple) (h : x.valid = true) :
    createFromCommand x.nss (serializeTuple x) = .ok (requestOfTuple x) := by
  obtain ⟨hnss, hfrom, hto, hset, hlt⟩ := (CommitTuple.valid_iff x).mp h
  simp [createFromCommand, serializeTuple, extractChunk, extractShardId,
    bsonExtractObjectField, bsonExtractStringField, bsonExtractTimestampField,
    ChunkRange.fromBSON, ChunkVersion.parseField, ChunkVersion.parseElement,
    getField, getLeaf, requestOfTuple, hfrom, hto, hset, hlt]

/-! ## Claims -/

/-- C5: `appendAsCommand` requires an empty output builder and a
well-formed collection identity; a violated precondition is a fatal
invariant failure (modelled as `none`), never a recoverable Status, and
under the preconditions the assertion branch is unreachable (the result is
always a message). -/
theorem C5_appendAsCommand_preconditions (builder : BSONObj)
    (nss : NamespaceString) (fromShard toShard : ShardId)
    (migratedChunk : ChunkType) (fromShardCollectionVersion : ChunkVersion)
    (validAfter : Timestamp) :
    (¬(builder = [] ∧ nss.isValid = true) →
      appendAsCommand builder nss fromShard toShard migratedChunk
        fromShardCollectionVersion validAfter = none) ∧
    (builder = [] → nss.isValid = true →
      (appendAsCommand builder nss fromShard toShard migratedChunk
        fromShardCollectionVersion validAfter).isSome = true) := by
  constructor
  · intro h
    simp only [appendAsCommand]
    rw [if_neg h]
  · intro h1 h2
    simp [appendAsCommand, h1, h2]

/-- Closed witness for C5: both a violated precondition (non-empty builder)
and satisfied preconditions, at concrete inputs. -/
theorem C5_appendAsCommand_preconditions_witness :
    appendAsCommand [("stale", BSONValue.leaf (BSONLeaf.key 0))] ⟨"db.coll"⟩
      "shard0" "shard1" ⟨0, 5, ChunkVersion.zero⟩ ChunkVersion.zero ⟨1, 0⟩ = none ∧
    (appendAsCommand [] ⟨"db.coll"⟩ "shard0" "shard1" ⟨0, 5, ChunkVersion.zero⟩
      ChunkVersion.zero ⟨1, 0⟩).isSome = true :=
  ⟨(C5_appendAsCommand_preconditions _ _ _ _ _ _ _).1 (by decide),
   (C5_appendAsCommand_preconditions _ _ _ _ _ _ _).2 rfl (by decide)⟩

/-- C6: serialization is deterministic and produces exactly the fixed field
set in a fixed order — command name, fromShard, toShard, migratedChunk as
a nested min/max/version object, fromShardCollectionVersion, validAfter;
two calls with equal inputs produce identical messages. -/
theorem C6_serialize_fixed_fields (x y : CommitTuple)
    (hv : x.nss.isValid = true) (hxy : x = y) :
    appendAsCommand [] x.nss x.fromShard x.toShard x.migratedChunk
      x.fromShardCollectionVersion x.validAfter = some (serializeTuple x) ∧
    (serializeTuple x).map Prod.fst =
      ["_configsvrCommitChunkMigration", "fromShard", "toShard",
       "migratedChunk", "fromShardCollectionVersion", "validAfter"] ∧
    getField (serializeTuple x) "migratedChunk" = some (BSONValue.obj
      [("min", BSONLeaf.key x.migratedChunk.minKey),
       ("max", BSONLeaf.key x.migratedChunk.maxKey),
       ("lastmod", BSONLeaf.version x.migratedChunk.version)]) ∧
    appendAsCommand [] x.nss x.fromShard x.toShard x.migratedChunk
        x.fromShardCollectionVersion x.validAfter =
      appendAsCommand [] y.nss y.fromShard y.toShard y.migratedChunk
        y.fromShardCollectionVersion y.validAfter := by
  subst hxy
  refine ⟨appendAsCommand_serializeTuple x hv, ?_, ?_, rfl⟩
  · simp [serializeTuple]
  · simp [serializeTuple, getField]

/-- Closed witness for C6 at a concrete valid tuple. -/
theorem C6_serialize_fixed_fields_witness :
    appendAsCommand [] ⟨"db.coll"⟩ "shard0" "shard1" ⟨0, 5, ⟨⟨7⟩, 3, ⟨10, 1⟩⟩⟩
        ⟨⟨9⟩, 5, ⟨20, 2⟩⟩ ⟨30, 0⟩ =
      some (serializeTuple ⟨⟨"db.coll"⟩, "shard0", "shard1",
        ⟨0, 5, ⟨⟨7⟩, 3, ⟨10, 1⟩⟩⟩, ⟨⟨9⟩, 5, ⟨20, 2⟩⟩, ⟨30, 0⟩⟩) ∧
    (serializeTuple ⟨⟨"db.coll"⟩, "shard0", "shard1",
        ⟨0, 5, ⟨⟨7⟩, 3, ⟨10, 1⟩⟩⟩, ⟨⟨9⟩, 5, ⟨20, 2⟩⟩, ⟨30, 0⟩⟩).map Prod.fst =
      ["_configsvrCommitChunkMigration", "fromShard", "toShard",
       "migratedChunk", "fromShardCollectionVersion", "validAfter"] :=
  ⟨(C6_serialize_fixed_fields
      ⟨⟨"db.coll"⟩, "shard0", "shard1", ⟨0, 5, ⟨⟨7⟩, 3, ⟨10, 1⟩⟩⟩,
        ⟨⟨9⟩, 5, ⟨20, 2⟩⟩, ⟨30, 0⟩⟩
      ⟨⟨"db.coll"⟩, "shard0", "shard1", ⟨0, 5, ⟨⟨7⟩, 3, ⟨10, 1⟩⟩⟩,
        ⟨⟨9⟩, 5, ⟨20, 2⟩⟩, ⟨30, 0⟩⟩ (by decide) rfl).1,
   (C6_serialize_fixed_fields
      ⟨⟨"db.coll"⟩, "shard0", "shard1", ⟨0, 5, ⟨⟨7⟩, 3, ⟨10, 1⟩⟩⟩,
        ⟨⟨9⟩, 5, ⟨20, 2⟩⟩, ⟨30, 0⟩⟩
      ⟨⟨"db.coll"⟩, "shard0", "shard1", ⟨0, 5, ⟨⟨7⟩, 3, ⟨10, 1⟩⟩⟩,
        ⟨⟨9⟩, 5, ⟨20, 2⟩⟩, ⟨30, 0⟩⟩ (by decide) rfl).2.1⟩

/-- C1 counterexample: two distinct valid field tuples, differing only in
the counter of `fromShardCollectionVersion`, serialize to different
messages that parse to the same request — so `parse(serialize(x))` does
not determine `x` and cannot equal `x` for both. -/
theorem C1_roundtrip_counterexample :
    CommitTuple.valid ⟨⟨"db.coll"⟩, "shard0", "shard1",
      ⟨0, 5, ⟨⟨7⟩, 3, ⟨10, 1⟩⟩⟩, ⟨⟨9⟩, 5, ⟨20, 2⟩⟩, ⟨30, 0⟩⟩ = true ∧
    CommitTuple.valid ⟨⟨"db.coll"⟩, "shard0", "shard1",
      ⟨0, 5, ⟨⟨7⟩, 3, ⟨10, 1⟩⟩⟩, ⟨⟨9⟩, 6, ⟨20, 2⟩⟩, ⟨30, 0⟩⟩ = true ∧
    (⟨⟨"db.coll"⟩, "shard0", "shard1", ⟨0, 5, ⟨⟨7⟩, 3, ⟨10, 1⟩⟩⟩,
        ⟨⟨9⟩, 5, ⟨20, 2⟩⟩, ⟨30, 0⟩⟩ : CommitTuple) ≠
      ⟨⟨"db.coll"⟩, "shard0", "shard1", ⟨0, 5, ⟨⟨7⟩, 3, ⟨10, 1⟩⟩⟩,
        ⟨⟨9⟩, 6, ⟨20, 2⟩⟩, ⟨30, 0⟩⟩ ∧
    createFromCommand ⟨"db.coll"⟩ (serializeTuple ⟨⟨"db.coll"⟩, "shard0", "shard1",
        ⟨0, 5, ⟨⟨7⟩, 3, ⟨10, 1⟩⟩⟩, ⟨⟨9⟩, 5, ⟨20, 2⟩⟩, ⟨30, 0⟩⟩) =
      createFromCommand ⟨"db.coll"⟩ (serializeTuple ⟨⟨"db.coll"⟩, "shard0", "shard1",
        ⟨0, 5, ⟨⟨7⟩, 3, ⟨10, 1⟩⟩⟩, ⟨⟨9⟩, 6, ⟨20, 2⟩⟩, ⟨30, 0⟩⟩) := by
  refine ⟨by decide, by decide, by decide, ?_⟩
  rfl

/-- C1 (amended): for every valid commit-message field tuple, serialization
succeeds and parsing the serialized message succeeds, yielding the request
that agrees with the tuple on collection, shards, migrated chunk and
validAfter and retains of `fromShardCollectionVersion` its epoch and
timestamp (the counter component is discarded). -/
theorem C1_roundtrip_projected (x : CommitTuple) (h : x.valid = true) :
    appendAsCommand [] x.nss x.fromShard x.toShard x.migratedChunk
      x.fromShardCollectionVersion x.validAfter = some (serializeTuple x) ∧
    createFromCommand x.nss (serializeTuple x) = .ok (requestOfTuple x) :=
  ⟨appendAsCommand_serializeTuple x ((CommitTuple.valid_iff x).mp h).1,
   createFromCommand_serializeTuple x h⟩

/-- Closed witness for C1 at a concrete valid tuple. -/
theorem C1_roundtrip_projected_witness :
    CommitTuple.valid ⟨⟨"db.coll"⟩, "shard0", "shard1",
      ⟨0, 5, ⟨⟨7⟩, 3, ⟨10, 1⟩⟩⟩, ⟨⟨9⟩, 5, ⟨20, 2⟩⟩, ⟨30, 0⟩⟩ = true ∧
    createFromCommand ⟨"db.coll"⟩ (serializeTuple ⟨⟨"db.coll"⟩, "shard0", "shard1",
        ⟨0, 5, ⟨⟨7⟩, 3, ⟨10, 1⟩⟩⟩, ⟨⟨9⟩, 5, ⟨20, 2⟩⟩, ⟨30, 0⟩⟩) =
      .ok (requestOfTuple ⟨⟨"db.coll"⟩, "shard0", "shard1",
        ⟨0, 5, ⟨⟨7⟩, 3, ⟨10, 1⟩⟩⟩, ⟨⟨9⟩, 5, ⟨20, 2⟩⟩, ⟨30, 0⟩⟩) :=
  ⟨by decide,
   (C1_roundtrip_projected ⟨⟨"db.coll"⟩, "shard0", "shard1",
      ⟨0, 5, ⟨⟨7⟩, 3, ⟨10, 1⟩⟩⟩, ⟨⟨9⟩, 5, ⟨20, 2⟩⟩, ⟨30, 0⟩⟩ (by decide)).2⟩

/-- C2 counterexample: the spec scenario — a commit message with
`fromShard = "s1"` and `toShard = "s1"`, both non-empty and equal, is not
rejected: parsing succeeds. -/
theorem C2_same_shard_counterexample :
    ("s1" : ShardId) ≠ "" ∧
    createFromCommand ⟨"db.coll"⟩ (serializeTuple ⟨⟨"db.coll"⟩, "s1", "s1",
        ⟨0, 5, ⟨⟨7⟩, 3, ⟨10, 1⟩⟩⟩, ⟨⟨9⟩, 5, ⟨20, 2⟩⟩, ⟨30, 0⟩⟩) =
      .ok (requestOfTuple ⟨⟨"db.coll"⟩, "s1", "s1",
        ⟨0, 5, ⟨⟨7⟩, 3, ⟨10, 1⟩⟩⟩, ⟨⟨9⟩, 5, ⟨20, 2⟩⟩, ⟨30, 0⟩⟩) := by
  refine ⟨by decide, ?_⟩
  rfl

/-- C2 (amended): parsing performs no same-shard check — every otherwise
valid commit message whose `fromShard` and `toShard` are equal non-empty
identifiers parses successfully, yielding a request with equal shard
identifiers; no catalog access is involved in parsing. -/
theorem C2_same_shard_accepted (x : CommitTuple) (h : x.valid = true)
    (hsame : x.fromShard = x.toShard) :
    ∃ r, createFromCommand x.nss (serializeTuple x) = .ok r ∧
      r.fromShard = r.toShard ∧ r.fromShard ≠ "" :=
  ⟨requestOfTuple x, createFromCommand_serializeTuple x h, hsame,
   ((CommitTuple.valid_iff x).mp h).2.1⟩

/-- Closed witness for C2 at the spec scenario input. -/
theorem C2_same_shard_accepted_witness :
    ∃ r, createFromCommand ⟨"db.coll"⟩ (serializeTuple ⟨⟨"db.coll"⟩, "s1", "s1",
        ⟨0, 5, ⟨⟨7⟩, 3, ⟨10, 1⟩⟩⟩, ⟨⟨9⟩, 5, ⟨20, 2⟩⟩, ⟨30, 0⟩⟩) = .ok r ∧
      r.fromShard = r.toShard ∧ r.fromShard ≠ "" :=
  C2_same_shard_accepted ⟨⟨"db.coll"⟩, "s1", "s1",
    ⟨0, 5, ⟨⟨7⟩, 3, ⟨10, 1⟩⟩⟩, ⟨⟨9⟩, 5, ⟨20, 2⟩⟩, ⟨30, 0⟩⟩ (by decide) rfl

/-- C4: parsing is all-or-nothing — whenever `createFromCommand` returns a
request, that request is fully populated and valid: it carries the given
namespace, non-empty shard identifiers, a set migrated-chunk version and
an ordered range; otherwise an error is returned. -/
theorem C4_parse_all_or_nothing (nss : NamespaceString) (obj : BSONObj)
    (r : CommitChunkMigrationRequest) (h : createFromCommand nss obj = .ok r) :
    r.nss = nss ∧ r.fromShard ≠ "" ∧ r.toShard ≠ "" ∧
      r.migratedChunk.version.isSet = true ∧
      r.migratedChunk.minKey < r.migratedChunk.maxKey := by
  unfold createFromCommand at h
  split at h
  · exact absurd h (by simp)
  next chunk hchunk =>
    split at h
    · exact absurd h (by simp)
    next fromS hfrom =>
      split at h
      · exact absurd h (by simp)
      next toS hto =>
        split at h
        · exact absurd h (by simp)
        next ver hver =>
          split at h
          · cases h
            exact ⟨rfl, extractShardId_ok_ne_empty hfrom,
              extractShardId_ok_ne_empty hto,
              (extractChunk_ok_valid hchunk).1, (extractChunk_ok_valid hchunk).2⟩
          · split at h
            · cases h
              exact ⟨rfl, extractShardId_ok_ne_empty hfrom,
                extractShardId_ok_ne_empty hto,
                (extractChunk_ok_valid hchunk).1, (extractChunk_ok_valid hchunk).2⟩
            · exact absurd h (by simp)

/-- Closed witness for C4 at a concrete successfully parsed message. -/
theorem C4_parse_all_or_nothing_witness :
    (requestOfTuple ⟨⟨"db.coll"⟩, "shard0", "shard1",
        ⟨0, 5, ⟨⟨7⟩, 3, ⟨10, 1⟩⟩⟩, ⟨⟨9⟩, 5, ⟨20, 2⟩⟩, ⟨30, 0⟩⟩).fromShard ≠ "" ∧
    (requestOfTuple ⟨⟨"db.coll"⟩, "shard0", "shard1",
        ⟨0, 5, ⟨⟨7⟩, 3, ⟨10, 1⟩⟩⟩, ⟨⟨9⟩, 5, ⟨20, 2⟩⟩,
        ⟨30, 0⟩⟩).migratedChunk.version.isSet = true :=
  ⟨(C4_parse_all_or_nothing ⟨"db.coll"⟩
      (serializeTuple ⟨⟨"db.coll"⟩, "shard0", "shard1",
        ⟨0, 5, ⟨⟨7⟩, 3, ⟨10, 1⟩⟩⟩, ⟨⟨9⟩, 5, ⟨20, 2⟩⟩, ⟨30, 0⟩⟩)
      (requestOfTuple ⟨⟨"db.coll"⟩, "shard0", "shard1",
        ⟨0, 5, ⟨⟨7⟩, 3, ⟨10, 1⟩⟩⟩, ⟨⟨9⟩, 5, ⟨20, 2⟩⟩, ⟨30, 0⟩⟩)
      rfl).2.1,
   (C4_parse_all_or_nothing ⟨"db.coll"⟩
      (serializeTuple ⟨⟨"db.coll"⟩, "shard0", "shard1",
        ⟨0, 5, ⟨⟨7⟩, 3, ⟨10, 1⟩⟩⟩, ⟨⟨9⟩, 5, ⟨20, 2⟩⟩, ⟨30, 0⟩⟩)
      (requestOfTuple ⟨⟨"db.coll"⟩, "shard0", "shard1",
        ⟨0, 5, ⟨⟨7⟩, 3, ⟨10, 1⟩⟩⟩, ⟨⟨9⟩, 5, ⟨20, 2⟩⟩, ⟨30, 0⟩⟩)
      rfl).2.2.2.1⟩

/-- C9: a successfully parsed request retains of
`fromShardCollectionVersion` only the epoch and the timestamp: parsing is
insensitive to the counter component (both over arbitrary message field
values and over serialized tuples), so the counter is not recoverable from
the parsed request. -/
theorem C9_version_counter_discarded :
    (∀ (nss : NamespaceString) (chunkV fromV toV : BSONValue)
        (va : Option BSONValue) (e : OID) (c c₂ : Nat) (ts : Timestamp),
      createFromCommand nss (rawMsg chunkV fromV toV
          (BSONValue.leaf (BSONLeaf.version ⟨e, c, ts⟩)) va) =
        createFromCommand nss (rawMsg chunkV fromV toV
          (BSONValue.leaf (BSONLeaf.version ⟨e, c₂, ts⟩)) va)) ∧
    (∀ (x : CommitTuple) (c₂ : Nat),
      createFromCommand x.nss (serializeTuple x) =
        createFromCommand x.nss (serializeTuple { x with
          fromShardCollectionVersion := ⟨x.fromShardCollectionVersion.epoch, c₂,
            x.fromShardCollectionVersion.timestamp⟩ })) := by
  have key : ∀ (nss : NamespaceString) (chunkF fromF toF vaF : Option BSONValue)
      (e : OID) (c c₂ : Nat) (ts : Timestamp),
      parseFields nss chunkF fromF toF
          (some (BSONValue.leaf (BSONLeaf.version ⟨e, c, ts⟩))) vaF =
        parseFields nss chunkF fromF toF
          (some (BSONValue.leaf (BSONLeaf.version ⟨e, c₂, ts⟩))) vaF := by
    intro nss chunkF fromF toF vaF e c c₂ ts
    unfold parseFields
    cases extractChunkElem chunkF "migratedChunk" with
    | error s => rfl
    | ok chunk =>
        cases extractShardIdElem fromF "fromShard" with
        | error s => rfl
        | ok fromS =>
            cases extractShardIdElem toF "toShard" with
            | error s => rfl
            | ok toS =>
                cases bsonExtractTimestampElem vaF "validAfter" with
                | error s => rfl
                | ok va => rfl
  constructor
  · intro nss chunkV fromV toV va e c c₂ ts
    rw [createFromCommand_rawMsg, createFromCommand_rawMsg]
    exact key nss (some chunkV) (some fromV) (some toV) va e c c₂ ts
  · intro x c₂
    rw [createFromCommand_eq_parseFields, createFromCommand_eq_parseFields]
    simp only [serializeTuple, getField]
    exact key x.nss _ _ _ _ x.fromShardCollectionVersion.epoch
      x.fromShardCollectionVersion.counter c₂ x.fromShardCollectionVersion.timestamp

/-- C3: rejection completeness — each documented defect, injected into an
otherwise well-formed message, makes `createFromCommand` fail with the
error of that defect: empty `fromShard` and empty `toShard`
(UnsupportedFormat), missing migrated-chunk version (no `lastmod`
element), unset (zero) migrated-chunk version (uassert 644490), malformed
range with `min >= max` (FailedToParse), malformed
`fromShardCollectionVersion` (TypeMismatch), and a present but
non-timestamp `validAfter` (TypeMismatch); while an absent `validAfter` is
not an error and yields a request with no causal floor. -/
theorem C3_rejection_completeness :
    (∀ (nss : NamespaceString) (mn mx : Int) (ver : ChunkVersion)
        (toV fscv : BSONValue) (va : Option BSONValue),
      mn < mx → ver.isSet = true →
      createFromCommand nss (rawMsg (chunkObj mn mx ver)
          (BSONValue.leaf (BSONLeaf.str "")) toV fscv va) =
        .error { code := .unsupportedFormat,
                 msg := "The field fromShard cannot be empty" }) ∧
    (∀ (nss : NamespaceString) (mn mx : Int) (ver : ChunkVersion)
        (fromS : String) (fscv : BSONValue) (va : Option BSONValue),
      mn < mx → ver.isSet = true → fromS ≠ "" →
      createFromCommand nss (rawMsg (chunkObj mn mx ver)
          (BSONValue.leaf (BSONLeaf.str fromS))
          (BSONValue.leaf (BSONLeaf.str "")) fscv va) =
        .error { code := .unsupportedFormat,
                 msg := "The field toShard cannot be empty" }) ∧
    (∀ (nss : NamespaceString) (mn mx : Int)
        (fromV toV fscv : BSONValue) (va : Option BSONValue),
      mn < mx →
      createFromCommand nss (rawMsg
          (BSONValue.obj [("min", BSONLeaf.key mn), ("max", BSONLeaf.key mx)])
          fromV toV fscv va) =
        .error { code := .noSuchKey, msg := "lastmod" }) ∧
    (∀ (nss : NamespaceString) (mn mx : Int)
        (fromV toV fscv : BSONValue) (va : Option BSONValue),
      mn < mx →
      createFromCommand nss (rawMsg (chunkObj mn mx ChunkVersion.zero)
          fromV toV fscv va) =
        .error { code := .location 644490, msg := "Version must be set" }) ∧
    (∀ (nss : NamespaceString) (mn mx : Int) (ver : ChunkVersion)
        (fromV toV fscv : BSONValue) (va : Option BSONValue),
      ¬mn < mx →
      createFromCommand nss (rawMsg (chunkObj mn mx ver) fromV toV fscv va) =
        .error { code := .failedToParse, msg := "min must be less than max" }) ∧
    (∀ (nss : NamespaceString) (mn mx : Int) (ver : ChunkVersion)
        (fromS toS : String) (fscv : BSONValue) (va : Option BSONValue),
      mn < mx → ver.isSet = true → fromS ≠ "" → toS ≠ "" →
      (∀ v : ChunkVersion, fscv ≠ BSONValue.leaf (BSONLeaf.version v)) →
      createFromCommand nss (rawMsg (chunkObj mn mx ver)
          (BSONValue.leaf (BSONLeaf.str fromS))
          (BSONValue.leaf (BSONLeaf.str toS)) fscv va) =
        .error { code := .typeMismatch, msg := "fromShardCollectionVersion" }) ∧
    (∀ (nss : NamespaceString) (mn mx : Int) (ver : ChunkVersion)
        (fromS toS : String) (v : ChunkVersion) (vaV : BSONValue),
      mn < mx → ver.isSet = true → fromS ≠ "" → toS ≠ "" →
      (∀ t : Timestamp, vaV ≠ BSONValue.leaf (BSONLeaf.ts t)) →
      createFromCommand nss (rawMsg (chunkObj mn mx ver)
          (BSONValue.leaf (BSONLeaf.str fromS))
          (BSONValue.leaf (BSONLeaf.str toS))
          (BSONValue.leaf (BSONLeaf.version v)) (some vaV)) =
        .error { code := .typeMismatch, msg := "validAfter" }) ∧
    (∀ (nss : NamespaceString) (mn mx : Int) (ver : ChunkVersion)
        (fromS toS : String) (v : ChunkVersion),
      mn < mx → ver.isSet = true → fromS ≠ "" → toS ≠ "" →
      createFromCommand nss (rawMsg (chunkObj mn mx ver)
          (BSONValue.leaf (BSONLeaf.str fromS))
          (BSONValue.leaf (BSONLeaf.str toS))
          (BSONValue.leaf (BSONLeaf.version v)) none) =
        .ok { nss := nss, migratedChunk := ⟨mn, mx, ver⟩,
              fromShard := fromS, toShard := toS,
              collectionEpoch := v.epoch, collectionTimestamp := v.timestamp,
              validAfter := none }) := by
  refine ⟨?_, ?_, ?_, ?_, ?_, ?_, ?_, ?_⟩
  · intro nss mn mx ver toV fscv va hlt hset
    rw [createFromCommand_rawMsg]
    simp [parseFields, extractChunkElem, bsonExtractObjectElem, chunkObj,
      ChunkRange.fromBSON, getLeaf, ChunkVersion.parseElement,
      extractShardIdElem, bsonExtractStringElem, hlt, hset]
  · intro nss mn mx ver fromS fscv va hlt hset hfrom
    rw [createFromCommand_rawMsg]
    simp [parseFields, extractChunkElem, bsonExtractObjectElem, chunkObj,
      ChunkRange.fromBSON, getLeaf, ChunkVersion.parseElement,
      extractShardIdElem, bsonExtractStringElem, hlt, hset, hfrom]
  · intro nss mn mx fromV toV fscv va hlt
    rw [createFromCommand_rawMsg]
    simp [parseFields, extractChunkElem, bsonExtractObjectElem,
      ChunkRange.fromBSON, getLeaf, ChunkVersion.parseElement, hlt]
  · intro nss mn mx fromV toV fscv va hlt
    rw [createFromCommand_rawMsg]
    simp [parseFields, extractChunkElem, bsonExtractObjectElem, chunkObj,
      ChunkRange.fromBSON, getLeaf, ChunkVersion.parseElement,
      ChunkVersion.isSet, hlt]
  · intro nss mn mx ver fromV toV fscv va hlt
    rw [createFromCommand_rawMsg]
    simp [parseFields, extractChunkElem, bsonExtractObjectElem, chunkObj,
      ChunkRange.fromBSON, getLeaf, hlt]
  · intro nss mn mx ver fromS toS fscv va hlt hset hfrom hto hbad
    rw [createFromCommand_rawMsg]
    have hv : ChunkVersion.parseValueElem (some fscv) "fromShardCollectionVersion" =
        .error { code := .typeMismatch, msg := "fromShardCollectionVersion" } := by
      cases fscv with
      | leaf l =>
          cases l with
          | version v => exact absurd rfl (hbad v)
          | str s => rfl
          | ts t => rfl
          | key k => rfl
      | obj o => rfl
    simp [parseFields, extractChunkElem, bsonExtractObjectElem, chunkObj,
      ChunkRange.fromBSON, getLeaf, ChunkVersion.parseElement,
      extractShardIdElem, bsonExtractStringElem, hlt, hset, hfrom, hto, hv]
  · intro nss mn mx ver fromS toS v vaV hlt hset hfrom hto hbad
    rw [createFromCommand_rawMsg]
    have hva : bsonExtractTimestampElem (some vaV) "validAfter" =
        .error { code := .typeMismatch, msg := "validAfter" } := by
      cases vaV with
      | leaf l =>
          cases l with
          | ts t => exact absurd rfl (hbad t)
          | str s => rfl
          | version v2 => rfl
          | key k => rfl
      | obj o => rfl
    simp [parseFields, extractChunkElem, bsonExtractObjectElem, chunkObj,
      ChunkRange.fromBSON, getLeaf, ChunkVersion.parseElement,
      extractShardIdElem, bsonExtractStringElem,
      ChunkVersion.parseValueElem, hlt, hset, hfrom, hto, hva]
  · intro nss mn mx ver fromS toS v hlt hset hfrom hto
    rw [createFromCommand_rawMsg]
    simp [parseFields, extractChunkElem, bsonExtractObjectElem, chunkObj,
      ChunkRange.fromBSON, getLeaf, ChunkVersion.parseElement,
      extractShardIdElem, bsonExtractStringElem,
      ChunkVersion.parseValueElem, bsonExtractTimestampElem,
      hlt, hset, hfrom, hto]

/-- Closed witness for C3: each defective message rejected with its error
and the absent-validAfter message accepted, at concrete inputs. -/
theorem C3_rejection_completeness_witness :
    createFromCommand ⟨"db.coll"⟩ (rawMsg (chunkObj 0 5 ⟨⟨7⟩, 3, ⟨10, 1⟩⟩)
        (BSONValue.leaf (BSONLeaf.str ""))
        (BSONValue.leaf (BSONLeaf.str "shard1"))
        (BSONValue.leaf (BSONLeaf.version ⟨⟨9⟩, 5, ⟨20, 2⟩⟩)) none) =
      .error { code := .unsupportedFormat,
               msg := "The field fromShard cannot be empty" } ∧
    createFromCommand ⟨"db.coll"⟩ (rawMsg (chunkObj 0 5 ⟨⟨7⟩, 3, ⟨10, 1⟩⟩)
        (BSONValue.leaf (BSONLeaf.str "shard0"))
        (BSONValue.leaf (BSONLeaf.str ""))
        (BSONValue.leaf (BSONLeaf.version ⟨⟨9⟩, 5, ⟨20, 2⟩⟩)) none) =
      .error { code := .unsupportedFormat,
               msg := "The field toShard cannot be empty" } ∧
    createFromCommand ⟨"db.coll"⟩ (rawMsg
        (BSONValue.obj [("min", BSONLeaf.key 0), ("max", BSONLeaf.key 5)])
        (BSONValue.leaf (BSONLeaf.str "shard0"))
        (BSONValue.leaf (BSONLeaf.str "shard1"))
        (BSONValue.leaf (BSONLeaf.version ⟨⟨9⟩, 5, ⟨20, 2⟩⟩)) none) =
      .error { code := .noSuchKey, msg := "lastmod" } ∧
    createFromCommand ⟨"db.coll"⟩ (rawMsg (chunkObj 0 5 ChunkVersion.zero)
        (BSONValue.leaf (BSONLeaf.str "shard0"))
        (BSONValue.leaf (BSONLeaf.str "shard1"))
        (BSONValue.leaf (BSONLeaf.version ⟨⟨9⟩, 5, ⟨20, 2⟩⟩)) none) =
      .error { code := .location 644490, msg := "Version must be set" } ∧
    createFromCommand ⟨"db.coll"⟩ (rawMsg (chunkObj 5 0 ⟨⟨7⟩, 3, ⟨10, 1⟩⟩)
        (BSONValue.leaf (BSONLeaf.str "shard0"))
        (BSONValue.leaf (BSONLeaf.str "shard1"))
        (BSONValue.leaf (BSONLeaf.version ⟨⟨9⟩, 5, ⟨20, 2⟩⟩)) none) =
      .error { code := .failedToParse, msg := "min must be less than max" } ∧
    createFromCommand ⟨"db.coll"⟩ (rawMsg (chunkObj 0 5 ⟨⟨7⟩, 3, ⟨10, 1⟩⟩)
        (BSONValue.leaf (BSONLeaf.str "shard0"))
        (BSONValue.leaf (BSONLeaf.str "shard1"))
        (BSONValue.leaf (BSONLeaf.str "not a version")) none) =
      .error { code := .typeMismatch, msg := "fromShardCollectionVersion" } ∧
    createFromCommand ⟨"db.coll"⟩ (rawMsg (chunkObj 0 5 ⟨⟨7⟩, 3, ⟨10, 1⟩⟩)
        (BSONValue.leaf (BSONLeaf.str "shard0"))
        (BSONValue.leaf (BSONLeaf.str "shard1"))
        (BSONValue.leaf (BSONLeaf.version ⟨⟨9⟩, 5, ⟨20, 2⟩⟩))
        (some (BSONValue.leaf (BSONLeaf.str "not a timestamp")))) =
      .error { code := .typeMismatch, msg := "validAfter" } ∧
    createFromCommand ⟨"db.coll"⟩ (rawMsg (chunkObj 0 5 ⟨⟨7⟩, 3, ⟨10, 1⟩⟩)
        (BSONValue.leaf (BSONLeaf.str "shard0"))
        (BSONValue.leaf (BSONLeaf.str "shard1"))
        (BSONValue.leaf (BSONLeaf.version ⟨⟨9⟩, 5, ⟨20, 2⟩⟩)) none) =
      .ok { nss := ⟨"db.coll"⟩, migratedChunk := ⟨0, 5, ⟨⟨7⟩, 3, ⟨10, 1⟩⟩⟩,
            fromShard := "shard0", toShard := "shard1",
            collectionEpoch := ⟨9⟩, collectionTimestamp := ⟨20, 2⟩,
            validAfter := none } :=
  ⟨C3_rejection_completeness.1 ⟨"db.coll"⟩ 0 5 ⟨⟨7⟩, 3, ⟨10, 1⟩⟩ _ _ none
      (by decide) (by decide),
   C3_rejection_completeness.2.1 ⟨"db.coll"⟩ 0 5 ⟨⟨7⟩, 3, ⟨10, 1⟩⟩ "shard0" _ none
      (by decide) (by decide) (by decide),
   C3_rejection_completeness.2.2.1 ⟨"db.coll"⟩ 0 5 _ _ _ none (by decide),
   C3_rejection_completeness.2.2.2.1 ⟨"db.coll"⟩ 0 5 _ _ _ none (by decide),
   C3_rejection_completeness.2.2.2.2.1 ⟨"db.coll"⟩ 5 0 ⟨⟨7⟩, 3, ⟨10, 1⟩⟩ _ _ _ none
      (by decide),
   C3_rejection_completeness.2.2.2.2.2.1 ⟨"db.coll"⟩ 0 5 ⟨⟨7⟩, 3, ⟨10, 1⟩⟩
      "shard0" "shard1" _ none (by decide) (by decide) (by decide) (by decide)
      (fun v => by simp),
   C3_rejection_completeness.2.2.2.2.2.2.1 ⟨"db.coll"⟩ 0 5 ⟨⟨7⟩, 3, ⟨10, 1⟩⟩
      "shard0" "shard1" ⟨⟨9⟩, 5, ⟨20, 2⟩⟩ _ (by decide) (by decide) (by decide)
      (by decide) (fun t => by simp),
   C3_rejection_completeness.2.2.2.2.2.2.2 ⟨"db.coll"⟩ 0 5 ⟨⟨7⟩, 3, ⟨10, 1⟩⟩
      "shard0" "shard1" ⟨⟨9⟩, 5, ⟨20, 2⟩⟩ (by decide) (by decide) (by decide)
      (by decide)⟩

/-- C7: `checkIfOptionsConflict` succeeds iff every compared parameter of
the freshly arrived request document equals the in-flight document's
(namespace, old shard key, new shard key), and any mismatch produces the
ConflictingOperation error rather than a merge. -/
theorem C7_checkIfOptionsConflict_iff
    (doc requestDoc : RefineCollectionShardKeyCoordinatorDocument) :
    (checkIfOptionsConflict doc requestDoc = .ok () ↔
      doc.nss = requestDoc.nss ∧ doc.oldShardKey = requestDoc.oldShardKey ∧
        doc.newShardKey = requestDoc.newShardKey) ∧
    (¬(doc.nss = requestDoc.nss ∧ doc.oldShardKey = requestDoc.oldShardKey ∧
        doc.newShardKey = requestDoc.newShardKey) →
      checkIfOptionsConflict doc requestDoc =
        .error { code := .conflictingOperation,
                 msg := "Another refine collection with different arguments is already running" }) := by
  refine ⟨⟨?_, ?_⟩, ?_⟩
  · intro h
    by_contra hc
    unfold checkIfOptionsConflict at h
    rw [if_neg hc] at h
    exact absurd h (by simp)
  · intro h
    unfold checkIfOptionsConflict
    rw [if_pos h]
  · intro h
    unfold checkIfOptionsConflict
    rw [if_neg h]

/-- Closed witness for C7: equal documents pass, a changed new key is a
conflicting-operation error, at concrete documents. -/
theorem C7_checkIfOptionsConflict_witness :
    checkIfOptionsConflict ⟨⟨"db.coll"⟩, ["a"], ["a", "b"]⟩
        ⟨⟨"db.coll"⟩, ["a"], ["a", "b"]⟩ = .ok () ∧
    checkIfOptionsConflict ⟨⟨"db.coll"⟩, ["a"], ["a", "b"]⟩
        ⟨⟨"db.coll"⟩, ["a"], ["a", "c"]⟩ =
      .error { code := .conflictingOperation,
               msg := "Another refine collection with different arguments is already running" } :=
  ⟨(C7_checkIfOptionsConflict_iff _ _).1.mpr ⟨rfl, rfl, rfl⟩,
   (C7_checkIfOptionsConflict_iff ⟨⟨"db.coll"⟩, ["a"], ["a", "b"]⟩
      ⟨⟨"db.coll"⟩, ["a"], ["a", "c"]⟩).2 (by simp)⟩

/-- C8: `reportForCurrentOp` never fails for any mode combination — it
always returns a snapshot carrying the namespace, the phase and the
requested key, and absent optional context (the collection UUID) is
reported as a missing field, never as a failure. -/
theorem C8_reportForCurrentOp_total (st : RefineCoordinatorState)
    (connMode : CurrentOpConnectionsMode) (sessionMode : CurrentOpSessionsMode) :
    ∃ snapshot, reportForCurrentOp st connMode sessionMode = .ok (some snapshot) ∧
      getField snapshot "ns" = some (BSONValue.leaf (BSONLeaf.str st.doc.nss.ns)) ∧
      getField snapshot "phase" =
        some (BSONValue.leaf (BSONLeaf.str (serializePhase st.phase))) ∧
      getField snapshot "newShardKey" = some (BSONValue.obj
        (st.doc.newShardKey.map (fun f => (f, BSONLeaf.key 1)))) ∧
      getField snapshot "collectionUUID" = st.collectionUUID.map
        (fun u => BSONValue.leaf (BSONLeaf.key (Int.ofNat u))) := by
  refine ⟨_, rfl, ?_, ?_, ?_, ?_⟩ <;>
    cases st.collectionUUID <;> simp [getField]

/-- C10: `appendAsCommand` unconditionally appends `validAfter` — every
message it produces carries the field — even though a message lacking
`validAfter` is still accepted by `createFromCommand`, with the parsed
request recording no causal floor. -/
theorem C10_validAfter_mandatory_in_serialize :
    (∀ (builder : BSONObj) (nss : NamespaceString) (fromShard toShard : ShardId)
        (migratedChunk : ChunkType) (fromShardCollectionVersion : ChunkVersion)
        (validAfter : Timestamp) (m : BSONObj),
      appendAsCommand builder nss fromShard toShard migratedChunk
          fromShardCollectionVersion validAfter = some m →
      getField m "validAfter" = some (BSONValue.leaf (BSONLeaf.ts validAfter))) ∧
    (∃ (nss : NamespaceString) (m : BSONObj) (r : CommitChunkMigrationRequest),
      getField m "validAfter" = none ∧ createFromCommand nss m = .ok r ∧
        r.validAfter = none) := by
  constructor
  · intro builder nss fromShard toShard migratedChunk v validAfter m h
    unfold appendAsCommand at h
    split at h
    · rename_i hcond
      cases h
      obtain ⟨hb, _⟩ := hcond
      subst hb
      simp [getField]
    · exact absurd h (by simp)
  · refine ⟨⟨"db.coll"⟩, rawMsg (chunkObj 0 5 ⟨⟨7⟩, 3, ⟨10, 1⟩⟩)
      (BSONValue.leaf (BSONLeaf.str "shard0"))
      (BSONValue.leaf (BSONLeaf.str "shard1"))
      (BSONValue.leaf (BSONLeaf.version ⟨⟨9⟩, 5, ⟨20, 2⟩⟩)) none,
      { nss := ⟨"db.coll"⟩, migratedChunk := ⟨0, 5, ⟨⟨7⟩, 3, ⟨10, 1⟩⟩⟩,
        fromShard := "shard0", toShard := "shard1",
        collectionEpoch := ⟨9⟩, collectionTimestamp := ⟨20, 2⟩,
        validAfter := none }, by decide, rfl, rfl⟩

/-- Closed witness for C10: the serialized message of a concrete tuple
carries its `validAfter` field. -/
theorem C10_validAfter_mandatory_witness :
    getField (serializeTuple ⟨⟨"db.coll"⟩, "shard0", "shard1",
        ⟨0, 5, ⟨⟨7⟩, 3, ⟨10, 1⟩⟩⟩, ⟨⟨9⟩, 5, ⟨20, 2⟩⟩, ⟨30, 0⟩⟩) "validAfter" =
      some (BSONValue.leaf (BSONLeaf.ts ⟨30, 0⟩)) :=
  C10_validAfter_mandatory_in_serialize.1 [] ⟨"db.coll"⟩ "shard0" "shard1"
    ⟨0, 5, ⟨⟨7⟩, 3, ⟨10, 1⟩⟩⟩ ⟨⟨9⟩, 5, ⟨20, 2⟩⟩ ⟨30, 0⟩ _
    (appendAsCommand_serializeTuple ⟨⟨"db.coll"⟩, "shard0", "shard1",
      ⟨0, 5, ⟨⟨7⟩, 3, ⟨10, 1⟩⟩⟩, ⟨⟨9⟩, 5, ⟨20, 2⟩⟩, ⟨30, 0⟩⟩ (by decide))

end MongoModel
